import Mathlib

/-!
Shallow embedding of the leverage-sweep valuation model of
`capital_structure.py` (the computation block: model constants, the
101-point grid, the tax-shield, distress-cost and levered-value series,
the arg-max scan, and the annotation indices), together with theorems
settling the specification claims about it.
-/

namespace CapitalStructure

/-- Decay constant of the tax-shield benefit curve (`BETA_DECAY = 2.0`). -/
def BETA_DECAY : ℝ := 2.0

/-- Exponent of the distress-cost curve (`FD_EXPONENT = 2.0`). -/
def FD_EXPONENT : ℝ := 2.0

/-- Percentage-point offset of the two annotation arrows (`OFFSET = 7`). -/
def OFFSET : ℕ := 7

/-- Extra percentage points for the distress marker (`DIST_GAP = 3`). -/
def DIST_GAP : ℕ := 3

/-- Grid point `i` as a debt fraction: `d_frac = d_pct / 100`. -/
noncomputable def d_frac (i : ℕ) : ℝ := i / 100

/-- PV of the tax shield at grid point `i`:
`pv_tax = (T_c/100) * V_U * d_frac * np.exp(-BETA_DECAY * d_frac)`. -/
noncomputable def pv_tax (V_U T_c : ℝ) (i : ℕ) : ℝ :=
  (T_c / 100) * V_U * d_frac i * Real.exp (-BETA_DECAY * d_frac i)

/-- Firm value with tax shield only: `V_tax = V_U + pv_tax`. -/
noncomputable def V_tax (V_U T_c : ℝ) (i : ℕ) : ℝ :=
  V_U + pv_tax V_U T_c i

/-- PV of distress costs at grid point `i`:
`pv_fd = FD_total * d_frac ** FD_EXPONENT`. -/
noncomputable def pv_fd (FD_total : ℝ) (i : ℕ) : ℝ :=
  FD_total * d_frac i ^ FD_EXPONENT

/-- Levered firm value: `V_L = V_tax - pv_fd`. -/
noncomputable def V_L (V_U T_c FD_total : ℝ) (i : ℕ) : ℝ :=
  V_tax V_U T_c i - pv_fd FD_total i

/-- First-max-wins linear scan over indices `0..k`, the semantics of
`np.argmax`: the running best index is replaced only when a strictly
greater value is seen, so the first occurrence of the maximum wins. -/
def argmaxAux {α : Type} [LinearOrder α] (v : ℕ → α) : ℕ → ℕ
  | 0 => 0
  | k + 1 =>
    if v (argmaxAux v k) < v (k + 1) then k + 1 else argmaxAux v k

/-- `opt_idx = np.argmax(V_L)` over the 101-point grid. -/
noncomputable def opt_idx (V_U T_c FD_total : ℝ) : ℕ :=
  argmaxAux (V_L V_U T_c FD_total) 100

/-- `opt_d_pct = int(d_pct[opt_idx])`, and `d_pct[i] = i`. -/
noncomputable def opt_d_pct (V_U T_c FD_total : ℝ) : ℕ :=
  opt_idx V_U T_c FD_total

/-- `x_left = max(0, opt_d_pct - OFFSET)` (truncated subtraction on ℕ
coincides with Python's `max(0, · - OFFSET)` on integers). -/
noncomputable def x_left (V_U T_c FD_total : ℝ) : ℕ :=
  max 0 (opt_d_pct V_U T_c FD_total - OFFSET)

/-- `x_right = min(100, opt_d_pct + OFFSET)`. -/
noncomputable def x_right (V_U T_c FD_total : ℝ) : ℕ :=
  min 100 (opt_d_pct V_U T_c FD_total + OFFSET)

/-- `x_dist = min(100, x_right + DIST_GAP)`. -/
noncomputable def x_dist (V_U T_c FD_total : ℝ) : ℕ :=
  min 100 (x_right V_U T_c FD_total + DIST_GAP)

/-- `PVTS_top = V_tax[x_left]`. -/
noncomputable def PVTS_top (V_U T_c FD_total : ℝ) : ℝ :=
  V_tax V_U T_c (x_left V_U T_c FD_total)

/-- `VL_top = V_L[x_right]`: the value the code prints as the levered
firm value in the one-line summary (`st.markdown` at the bottom). -/
noncomputable def VL_top (V_U T_c FD_total : ℝ) : ℝ :=
  V_L V_U T_c FD_total (x_right V_U T_c FD_total)

/-- The tax-shield series as the 101-element array `V_tax`. -/
noncomputable def V_tax_series (V_U T_c : ℝ) : List ℝ :=
  (List.range 101).map (V_tax V_U T_c)

/-- The levered-value series as the 101-element array `V_L`. -/
noncomputable def V_L_series (V_U T_c FD_total : ℝ) : List ℝ :=
  (List.range 101).map (V_L V_U T_c FD_total)

/-- The bundle of series and readouts the computation block produces
(`V_tax`, `pv_fd`, `V_L`, `opt_idx`), the `LeverageSweepResult` of the
specification's data model. -/
structure LeverageSweepResult where
  tax_shield_value : ℕ → ℝ
  distress_cost : ℕ → ℝ
  levered_value : ℕ → ℝ
  optimal_index : ℕ

/-- The specification's `InvalidParameter` condition, identifying which
field failed its constraint. -/
inductive InvalidParameter where
  | unlevered_value : InvalidParameter
  | tax_rate : InvalidParameter
  | distress_scale : InvalidParameter

/-- The evaluation exactly as the source performs it: the computation
block runs unconditionally on the slider values — there is no
validation branch and no failure path anywhere in it. -/
noncomputable def evaluateCode (V_U T_c FD_total : ℝ) : LeverageSweepResult :=
  ⟨V_tax V_U T_c, pv_fd FD_total, V_L V_U T_c FD_total, opt_idx V_U T_c FD_total⟩

/-- Benefit shape from the spec's words: `f(d) = d * exp(-decay_rate * d)`. -/
noncomputable def f_shape (d : ℝ) : ℝ := d * Real.exp (-BETA_DECAY * d)

/-- Benefit curve from the spec's words:
`benefit(d) = tax_rate * unlevered_value * f(d)`. -/
noncomputable def benefit (tax_rate unlevered_value d : ℝ) : ℝ :=
  tax_rate * unlevered_value * f_shape d

/-- Tax-shield curve from the spec's words:
`tax_shield_value(d) = unlevered_value + benefit(d)`. -/
noncomputable def tax_shield_value (tax_rate unlevered_value d : ℝ) : ℝ :=
  unlevered_value + benefit tax_rate unlevered_value d

/-- Distress curve from the spec's words:
`distress_cost(d) = distress_scale * d^distress_exponent`. -/
noncomputable def distress_cost (distress_scale d : ℝ) : ℝ :=
  distress_scale * d ^ FD_EXPONENT

/-- Levered curve from the spec's words:
`levered_value(d) = tax_shield_value(d) - distress_cost(d)`. -/
noncomputable def levered_value (tax_rate unlevered_value distress_scale d : ℝ) : ℝ :=
  tax_shield_value tax_rate unlevered_value d - distress_cost distress_scale d

/-- `evaluate` following the specification's words (the comparison point
for the error-handling claim): reject out-of-domain inputs with an
`InvalidParameter` naming the violated field (`unlevered_value > 0`,
`tax_rate` in `[0,1]` as a fraction at the model boundary,
`distress_scale ≥ 0`; `decay_rate` and `distress_exponent` are the fixed
in-domain constants `2.0`), otherwise evaluate the three curves over the
grid and scan for the first maximum. -/
noncomputable def evaluateSpec (V_U T_c FD_total : ℝ) :
    Except InvalidParameter LeverageSweepResult :=
  if ¬ 0 < V_U then .error .unlevered_value
  else if ¬ (0 ≤ T_c / 100 ∧ T_c / 100 ≤ 1) then .error .tax_rate
  else if ¬ 0 ≤ FD_total then .error .distress_scale
  else .ok ⟨fun i => tax_shield_value (T_c / 100) V_U (d_frac i),
            fun i => distress_cost FD_total (d_frac i),
            fun i => levered_value (T_c / 100) V_U FD_total (d_frac i),
            argmaxAux (fun i => levered_value (T_c / 100) V_U FD_total (d_frac i)) 100⟩

section ArgmaxLemmas

variable {α : Type} [LinearOrder α] (v : ℕ → α)

theorem argmaxAux_le : ∀ k, argmaxAux v k ≤ k := by
  intro k
  induction k with
  | zero => exact le_refl 0
  | succ k ih =>
    unfold argmaxAux
    split
    · exact le_refl _
    · exact ih.trans (Nat.le_succ k)

theorem argmaxAux_is_max : ∀ k, ∀ j ≤ k, v j ≤ v (argmaxAux v k) := by
  intro k
  induction k with
  | zero =>
    intro j hj
    interval_cases j
    exact le_refl _
  | succ k ih =>
    intro j hj
    unfold argmaxAux
    split
    · rename_i hlt
      rcases lt_or_eq_of_le hj with h | h
      · exact (ih j (Nat.lt_succ_iff.mp h)).trans hlt.le
      · exact h ▸ le_refl _
    · rename_i hge
      rcases lt_or_eq_of_le hj with h | h
      · exact ih j (Nat.lt_succ_iff.mp h)
      · exact h ▸ not_lt.mp hge

theorem argmaxAux_first : ∀ k, ∀ j < argmaxAux v k, v j < v (argmaxAux v k) := by
  intro k
  induction k with
  | zero =>
    intro j hj
    exact absurd hj (Nat.not_lt_zero j)
  | succ k ih =>
    intro j hj
    unfold argmaxAux at hj ⊢
    split
    · rename_i hlt
      simp only [if_pos hlt] at hj
      exact lt_of_le_of_lt (argmaxAux_is_max v k j (Nat.lt_succ_iff.mp hj)) hlt
    · rename_i hge
      simp only [if_neg hge] at hj
      exact ih j hj

theorem argmaxAux_eq_zero {k : ℕ} (h : ∀ j ≤ k, v j ≤ v 0) :
    argmaxAux v k = 0 := by
  by_contra hne
  have h0 : 0 < argmaxAux v k := Nat.pos_of_ne_zero hne
  have hlt := argmaxAux_first v k 0 h0
  exact absurd hlt (not_lt.mpr (h _ (argmaxAux_le v k)))

end ArgmaxLemmas

/-- Subtracting a nonnegative multiple of a nondecreasing penalty never
moves the first-max-wins arg-max to the right. -/
theorem argmaxAux_sub_penalty_le (v g : ℕ → ℝ) (c : ℝ) (hc : 0 ≤ c)
    (hg : ∀ i j, i ≤ j → g i ≤ g j) (k : ℕ) :
    argmaxAux (fun i => v i - c * g i) k ≤ argmaxAux v k := by
  set a := argmaxAux v k with ha
  set b := argmaxAux (fun i => v i - c * g i) k with hb
  by_contra hcon
  have hab : a < b := not_le.mp hcon
  have hbk : b ≤ k := argmaxAux_le _ k
  have h1 : v b ≤ v a := argmaxAux_is_max v k b hbk
  have h2 : v a - c * g a < v b - c * g b := argmaxAux_first (fun i => v i - c * g i) k a hab
  have h3 : c * g a ≤ c * g b := mul_le_mul_of_nonneg_left (hg a b hab.le) hc
  linarith

theorem BETA_DECAY_eq : BETA_DECAY = 2 := by norm_num [BETA_DECAY]

theorem FD_EXPONENT_eq : FD_EXPONENT = 2 := by norm_num [FD_EXPONENT]

theorem d_frac_nonneg (i : ℕ) : 0 ≤ d_frac i := by
  unfold d_frac
  positivity

theorem d_frac_mono {i j : ℕ} (h : i ≤ j) : d_frac i ≤ d_frac j := by
  unfold d_frac
  have hc : (i : ℝ) ≤ (j : ℝ) := Nat.cast_le.mpr h
  linarith

theorem d_frac_zero : d_frac 0 = 0 := by
  simp [d_frac]

theorem pv_tax_nonneg {V_U T_c : ℝ} (hV : 0 ≤ V_U) (hT : 0 ≤ T_c) (i : ℕ) :
    0 ≤ pv_tax V_U T_c i := by
  unfold pv_tax
  have h1 : 0 ≤ T_c / 100 := div_nonneg hT (by norm_num)
  exact mul_nonneg (mul_nonneg (mul_nonneg h1 hV) (d_frac_nonneg i)) (Real.exp_pos _).le

theorem pv_fd_nonneg {FD_total : ℝ} (hF : 0 ≤ FD_total) (i : ℕ) :
    0 ≤ pv_fd FD_total i :=
  mul_nonneg hF (Real.rpow_nonneg (d_frac_nonneg i) _)

theorem pv_fd_mono {FD_total : ℝ} (hF : 0 ≤ FD_total) {i j : ℕ} (h : i ≤ j) :
    pv_fd FD_total i ≤ pv_fd FD_total j := by
  unfold pv_fd
  refine mul_le_mul_of_nonneg_left ?_ hF
  exact Real.rpow_le_rpow (d_frac_nonneg i) (d_frac_mono h) (by norm_num [FD_EXPONENT_eq])

theorem pv_tax_of_tax_zero (V_U : ℝ) (i : ℕ) : pv_tax V_U 0 i = 0 := by
  simp [pv_tax]

theorem V_tax_of_tax_zero (V_U : ℝ) (i : ℕ) : V_tax V_U 0 i = V_U := by
  simp [V_tax, pv_tax_of_tax_zero]

theorem pv_fd_zero (FD_total : ℝ) : pv_fd FD_total 0 = 0 := by
  rw [pv_fd, d_frac_zero, Real.zero_rpow (by norm_num [FD_EXPONENT_eq])]
  ring

theorem optidx_zero_of_no_tax (V_U FD_total : ℝ) (hF : 0 ≤ FD_total) :
    opt_idx V_U 0 FD_total = 0 := by
  unfold opt_idx
  refine argmaxAux_eq_zero _ ?_
  intro j hj
  unfold V_L
  rw [V_tax_of_tax_zero, V_tax_of_tax_zero, pv_fd_zero]
  have h := pv_fd_nonneg hF j
  linarith

theorem series_getElem (f : ℕ → ℝ) {n : ℕ} (h : n ≤ 100) :
    ((List.range 101).map f)[n]? = some (f n) := by
  rw [List.getElem?_map, List.getElem?_range (by omega : n < 101)]
  rfl

/-- C1: the three series follow the configured closed forms: the
tax-shield curve is `V_U + (T_c/100) * V_U * d * exp(-2 * d)` with
`d = i/100`, the distress curve is `FD_total * d ^ 2`, and the levered
curve is their difference, with `decay_rate = BETA_DECAY = 2.0` and
`distress_exponent = FD_EXPONENT = 2.0`. -/
theorem C1_curve_formulas (V_U T_c FD_total : ℝ) (i : ℕ) (_hi : i ≤ 100) :
    V_tax V_U T_c i
        = V_U + (T_c / 100) * V_U * ((i : ℝ) / 100)
            * Real.exp (-(2 : ℝ) * ((i : ℝ) / 100)) ∧
    pv_fd FD_total i = FD_total * ((i : ℝ) / 100) ^ (2 : ℝ) ∧
    V_L V_U T_c FD_total i = V_tax V_U T_c i - pv_fd FD_total i := by
  refine ⟨?_, ?_, rfl⟩
  · simp [V_tax, pv_tax, d_frac, BETA_DECAY_eq]
  · simp [pv_fd, d_frac, FD_EXPONENT_eq]

theorem C1_witness :
    (3 : ℕ) ≤ 100 ∧
    (V_tax 200 25 3
        = 200 + (25 / 100) * 200 * (((3 : ℕ) : ℝ) / 100)
            * Real.exp (-(2 : ℝ) * (((3 : ℕ) : ℝ) / 100)) ∧
     pv_fd 40 3 = 40 * (((3 : ℕ) : ℝ) / 100) ^ (2 : ℝ) ∧
     V_L 200 25 40 3 = V_tax 200 25 3 - pv_fd 40 3) :=
  ⟨by decide, C1_curve_formulas 200 25 40 3 (by decide)⟩

/-- C2: `opt_idx` is a global arg-max of `V_L` over the 101-point grid,
ties broken by first occurrence: every grid value is at most the value
at `opt_idx`, and every strictly earlier index has a strictly smaller
value. -/
theorem C2_optidx_first_argmax (V_U T_c FD_total : ℝ) :
    (∀ j ≤ 100, V_L V_U T_c FD_total j
        ≤ V_L V_U T_c FD_total (opt_idx V_U T_c FD_total)) ∧
    (∀ j < opt_idx V_U T_c FD_total, V_L V_U T_c FD_total j
        < V_L V_U T_c FD_total (opt_idx V_U T_c FD_total)) :=
  ⟨fun j hj => argmaxAux_is_max _ 100 j hj,
   fun j hj => argmaxAux_first _ 100 j hj⟩

theorem C2_witness :
    V_L 200 25 40 5 ≤ V_L 200 25 40 (opt_idx 200 25 40) :=
  (C2_optidx_first_argmax 200 25 40).1 5 (by decide)

/-- C7: at zero debt the curves start at their reference points:
`V_tax[0] = V_U` and `pv_fd[0] = 0`, exactly. -/
theorem C7_zero_debt_reference (V_U T_c FD_total : ℝ) :
    V_tax V_U T_c 0 = V_U ∧ pv_fd FD_total 0 = 0 := by
  constructor
  · simp [V_tax, pv_tax, d_frac_zero]
  · rw [pv_fd, d_frac_zero, Real.zero_rpow (by norm_num [FD_EXPONENT_eq])]
    ring

/-- C8: with `FD_total ≥ 0` (and the fixed exponent `2.0 ≥ 1`), the
distress-cost series is non-decreasing along the grid. -/
theorem C8_distress_nondecreasing (FD_total : ℝ) (hF : 0 ≤ FD_total)
    (i : ℕ) (_hi : i < 100) :
    pv_fd FD_total i ≤ pv_fd FD_total (i + 1) :=
  pv_fd_mono hF (Nat.le_succ i)

theorem C8_witness : pv_fd 40 10 ≤ pv_fd 40 11 :=
  C8_distress_nondecreasing 40 (by norm_num) 10 (by decide)

/-- C9: with `V_U > 0`, `T_c ≥ 0` and `FD_total ≥ 0`, the tax-shield-only
curve is an upper envelope at every grid point: `V_L[i] ≤ V_tax[i]` and
`V_U ≤ V_tax[i]`. -/
theorem C9_tax_shield_upper_envelope (V_U T_c FD_total : ℝ)
    (hV : 0 < V_U) (hT : 0 ≤ T_c) (hF : 0 ≤ FD_total) (i : ℕ) (_hi : i ≤ 100) :
    V_L V_U T_c FD_total i ≤ V_tax V_U T_c i ∧ V_U ≤ V_tax V_U T_c i := by
  constructor
  · have h := pv_fd_nonneg hF i
    unfold V_L
    linarith
  · have h := pv_tax_nonneg hV.le hT i
    unfold V_tax
    linarith

theorem C9_witness :
    V_L 200 25 40 50 ≤ V_tax 200 25 50 ∧ (200 : ℝ) ≤ V_tax 200 25 50 :=
  C9_tax_shield_upper_envelope 200 25 40 (by norm_num) (by norm_num)
    (by norm_num) 50 (by decide)

/-- C3 fails on the code: at `V_U = 200`, `T_c = 0`, `FD_total = 40` the
optimum is index `0` with levered value `200`, but the one-line summary
prints `VL_top = V_L[x_right] = V_L[7] = 199.804` as the levered firm
value — the readout is taken at `x_right = min(100, opt_d_pct + 7)`, not
at `opt_idx`. -/
theorem C3_summary_value_mismatch :
    opt_idx 200 0 40 = 0 ∧
    V_L 200 0 40 (opt_idx 200 0 40) = 200 ∧
    VL_top 200 0 40 = 199804 / 1000 := by
  have h0 : opt_idx (200 : ℝ) 0 40 = 0 := optidx_zero_of_no_tax 200 40 (by norm_num)
  refine ⟨h0, ?_, ?_⟩
  · rw [h0]
    unfold V_L
    rw [V_tax_of_tax_zero, pv_fd_zero]
    ring
  · unfold VL_top x_right opt_d_pct
    rw [h0]
    norm_num [OFFSET]
    unfold V_L pv_fd d_frac
    rw [V_tax_of_tax_zero, FD_EXPONENT_eq]
    rw [show ((2 : ℝ)) = ((2 : ℕ) : ℝ) by norm_num, Real.rpow_natCast]
    norm_num

/-- C4 fails on the code as stated: the evaluation never signals an
`InvalidParameter` condition — it has no validation or failure path — so
at the out-of-domain input `V_U = -1` the spec-side validated evaluation
rejects with `InvalidParameter.unlevered_value` while the code's
evaluation still returns a plain numeric result. -/
theorem C4_no_rejection_counterexample :
    evaluateSpec (-1) 25 40 = Except.error InvalidParameter.unlevered_value ∧
    Except.ok (evaluateCode (-1) 25 40) ≠ evaluateSpec (-1) 25 40 := by
  have hspec : evaluateSpec (-1 : ℝ) 25 40
      = Except.error InvalidParameter.unlevered_value := by
    unfold evaluateSpec
    rw [if_pos (by norm_num : ¬ (0 : ℝ) < -1)]
  exact ⟨hspec, by rw [hspec]; simp⟩

/-- C4 amended: the code performs no `InvalidParameter` signalling at
all; on every in-domain input (including degenerate `tax_rate = 0` or
`distress_scale = 0`) the evaluation returns a result without failing,
and that result agrees with the validated spec-side evaluation. -/
theorem C4_in_domain_agreement (V_U T_c FD_total : ℝ)
    (hV : 0 < V_U) (hT0 : 0 ≤ T_c / 100) (hT1 : T_c / 100 ≤ 1)
    (hF : 0 ≤ FD_total) :
    evaluateSpec V_U T_c FD_total = Except.ok (evaluateCode V_U T_c FD_total) := by
  unfold evaluateSpec
  rw [if_neg (not_not_intro hV), if_neg (not_not_intro ⟨hT0, hT1⟩),
    if_neg (not_not_intro hF)]
  have h1 : (fun i => tax_shield_value (T_c / 100) V_U (d_frac i)) = V_tax V_U T_c := by
    funext i
    unfold tax_shield_value benefit f_shape V_tax pv_tax
    ring
  have h3 : (fun i => levered_value (T_c / 100) V_U FD_total (d_frac i))
      = V_L V_U T_c FD_total := by
    funext i
    unfold levered_value tax_shield_value benefit f_shape distress_cost V_L V_tax pv_tax pv_fd
    ring
  rw [h1, h3]
  rfl

theorem C4_witness :
    evaluateSpec 200 25 40 = Except.ok (evaluateCode 200 25 40) :=
  C4_in_domain_agreement 200 25 40 (by norm_num) (by norm_num) (by norm_num)
    (by norm_num)

/-- C5: doubling `FD_total` (with everything else fixed, and `FD_total ≥ 0`
as the slider enforces) never moves the first-max-wins arg-max index to
the right. -/
theorem C5_doubling_distress_moves_left (V_U T_c FD_total : ℝ)
    (hF : 0 ≤ FD_total) :
    opt_idx V_U T_c (2 * FD_total) ≤ opt_idx V_U T_c FD_total := by
  have hfun : V_L V_U T_c (2 * FD_total)
      = fun i => V_L V_U T_c FD_total i - FD_total * d_frac i ^ FD_EXPONENT := by
    funext i
    unfold V_L pv_fd
    ring
  unfold opt_idx
  rw [hfun]
  exact argmaxAux_sub_penalty_le (V_L V_U T_c FD_total)
    (fun i => d_frac i ^ FD_EXPONENT) FD_total hF
    (fun i j h => Real.rpow_le_rpow (d_frac_nonneg i) (d_frac_mono h)
      (by norm_num [FD_EXPONENT_eq])) 100

theorem C5_witness : opt_idx 200 25 (2 * 40) ≤ opt_idx 200 25 40 :=
  C5_doubling_distress_moves_left 200 25 40 (by norm_num)

/-- C6: with `T_c = 0` the tax-shield series is flat at `V_U`, and with
any `FD_total ≥ 0` the arg-max lands on index `0` with levered value
`V_U`. -/
theorem C6_zero_tax_rate (V_U T_c FD_total : ℝ) (hT : T_c = 0)
    (hF : 0 ≤ FD_total) :
    (∀ i ≤ 100, V_tax V_U T_c i = V_U) ∧
    opt_idx V_U T_c FD_total = 0 ∧
    V_L V_U T_c FD_total (opt_idx V_U T_c FD_total) = V_U := by
  subst hT
  have h0 : opt_idx V_U 0 FD_total = 0 := optidx_zero_of_no_tax V_U FD_total hF
  refine ⟨fun i _ => V_tax_of_tax_zero V_U i, h0, ?_⟩
  rw [h0]
  unfold V_L
  rw [V_tax_of_tax_zero, pv_fd_zero]
  ring

theorem C6_witness :
    opt_idx 200 0 40 = 0 ∧ V_L 200 0 40 (opt_idx 200 0 40) = 200 :=
  (C6_zero_tax_rate 200 0 40 rfl (by norm_num)).2

/-- C10: the annotation indices `x_left`, `x_right`, `x_dist` always lie
in `0..100`, so the four reads into the 101-element series are in
bounds: each total `Option`-returning lookup returns `some`. -/
theorem C10_annotation_indices_in_bounds (V_U T_c FD_total : ℝ) :
    x_left V_U T_c FD_total ≤ 100 ∧
    x_right V_U T_c FD_total ≤ 100 ∧
    x_dist V_U T_c FD_total ≤ 100 ∧
    (V_tax_series V_U T_c)[x_left V_U T_c FD_total]?
        = some (V_tax V_U T_c (x_left V_U T_c FD_total)) ∧
    (V_L_series V_U T_c FD_total)[x_right V_U T_c FD_total]?
        = some (V_L V_U T_c FD_total (x_right V_U T_c FD_total)) ∧
    (V_L_series V_U T_c FD_total)[x_dist V_U T_c FD_total]?
        = some (V_L V_U T_c FD_total (x_dist V_U T_c FD_total)) ∧
    (V_tax_series V_U T_c)[x_dist V_U T_c FD_total]?
        = some (V_tax V_U T_c (x_dist V_U T_c FD_total)) := by
  have hopt : opt_idx V_U T_c FD_total ≤ 100 := argmaxAux_le _ 100
  have hl : x_left V_U T_c FD_total ≤ 100 := by
    unfold x_left opt_d_pct
    omega
  have hr : x_right V_U T_c FD_total ≤ 100 := by
    unfold x_right
    omega
  have hd : x_dist V_U T_c FD_total ≤ 100 := by
    unfold x_dist
    omega
  exact ⟨hl, hr, hd, series_getElem _ hl, series_getElem _ hr,
    series_getElem _ hd, series_getElem _ hd⟩

end CapitalStructure
